import Mathlib

/-!
Verification development for the hrana session-protocol scripts of the
libsql repository.  The embedded code is:

* `src/libsql-server/scripts/hrana_server.py` (the "h" variant below),
* `src/libsql-server/packages/js/hrana-client/test_server.py` (the "t"
  variant below; it differs from the "h" variant in the stream record —
  no per-stream lock — and in two lines of `execute_stmt`),
* `src/libsql-server/pypackages/libsql-client/libsql_client/sqlite_driver.py`
  (the `_batch` named-parameter handling).

Python values decoded from JSON frames are modelled by the inductive
`PyVal`; Python `float` payloads are modelled by the exact rational value
of the IEEE-754 double (every finite double is a rational, and none of the
embedded code performs rounding arithmetic on floats).  Exceptions are
modelled with `Except Err`; distinct Python exception classes map to
distinct `Err` constructors.
-/

/-- Python exception classes that the embedded scripts can raise. -/
inductive Err where
  | keyError
  | typeError
  | valueError
  | runtimeError
  | assertionError
  | attributeError
  | engineError
  deriving DecidableEq, Repr

/-- Native SQLite values as returned by / passed to the `sqlite3` module:
`None`, `int`, `float`, `str`, `bytes` (a byte is a `Nat` below 256). -/
inductive SqliteValue where
  | null
  | int (i : Int)
  | float (q : ℚ)
  | str (s : String)
  | bytes (b : List Nat)
  deriving DecidableEq, Repr

/-- Python values reachable from JSON-decoded frames plus `bytes` (which
`base64.b64encode` produces).  A dict is an insertion-ordered association
list, as in CPython. -/
inductive PyVal where
  | none
  | int (i : Int)
  | float (q : ℚ)
  | str (s : String)
  | bytes (b : List Nat)
  | dict (entries : List (String × PyVal))

/-- Insertion-ordered dictionary assignment `d[k] = v`: an existing key is
updated in place, a new key is appended, matching CPython dict semantics. -/
def assocPut {κ α : Type} [DecidableEq κ] : List (κ × α) → κ → α → List (κ × α)
  | [], k, v => [(k, v)]
  | e :: rest, k, v => if e.1 = k then (k, v) :: rest else e :: assocPut rest k v

/-- Dictionary membership lookup returning an `Option`. -/
def assocGet {κ α : Type} [DecidableEq κ] : List (κ × α) → κ → Option α
  | [], _ => Option.none
  | e :: rest, k => if e.1 = k then Option.some e.2 else assocGet rest k

/-- Python dict subscript `d[k]`: raises `KeyError` when the key is absent. -/
def pyDictGet (entries : List (String × PyVal)) (k : String) : Except Err PyVal :=
  match assocGet entries k with
  | Option.some v => Except.ok v
  | Option.none => Except.error Err.keyError

/-- Numeric value of a decimal digit character. -/
def digitVal (c : Char) : Option Nat :=
  if '0' ≤ c ∧ c ≤ '9' then Option.some (c.toNat - '0'.toNat) else Option.none

/-- Value of a nonempty all-digit character list, read in base 10. -/
def decDigitsVal (cs : List Char) : Option Nat :=
  match cs with
  | [] => Option.none
  | _ => cs.foldlM (fun acc c => (digitVal c).map fun d => acc * 10 + d) 0

/-- Strip leading and trailing whitespace, as Python `int()`/`float()` do
before parsing a string. -/
def stripWs (cs : List Char) : List Char :=
  ((cs.dropWhile Char.isWhitespace).reverse.dropWhile Char.isWhitespace).reverse

/-- Models Python `int(s)` for a string: optional surrounding whitespace,
optional sign, then decimal digits; anything else raises `ValueError`.
(CPython additionally allows single underscores between digits and
non-ASCII decimal digits; no theorem below depends on such inputs.) -/
def pyIntOfStr (s : String) : Except Err Int :=
  match stripWs s.data with
  | '+' :: rest =>
    match decDigitsVal rest with
    | Option.some n => Except.ok (n : Int)
    | Option.none => Except.error Err.valueError
  | '-' :: rest =>
    match decDigitsVal rest with
    | Option.some n => Except.ok (-(n : Int))
    | Option.none => Except.error Err.valueError
  | cs =>
    match decDigitsVal cs with
    | Option.some n => Except.ok (n : Int)
    | Option.none => Except.error Err.valueError

/-- Truncation toward zero of a rational, which is what Python `int(f)`
performs on a float.  `Int.div` is T-division, so `num.div den` truncates
toward zero. -/
def ratTruncTowardZero (q : ℚ) : Int := Int.tdiv q.num (q.den : Int)

/-- ASCII codes of a byte string, for Python functions that accept both
`str` and `bytes` arguments. -/
def bytesToString (b : List Nat) : String := String.mk (b.map Char.ofNat)

/-- Models the Python builtin `int(x)` as applied by the embedded scripts:
ints pass through, floats truncate toward zero, strings and bytes parse as
decimal integers, everything else raises `TypeError`. -/
def pyInt : PyVal → Except Err Int
  | PyVal.int i => Except.ok i
  | PyVal.float q => Except.ok (ratTruncTowardZero q)
  | PyVal.str s => pyIntOfStr s
  | PyVal.bytes b => pyIntOfStr (bytesToString b)
  | PyVal.none => Except.error Err.typeError
  | PyVal.dict _ => Except.error Err.typeError

/-- Models Python `float(s)` for a string: optional whitespace and sign,
then `digits`, `digits.`, `.digits` or `digits.digits`.  (Exponents,
`inf` and `nan` are accepted by CPython but unreachable in the theorems
below.) -/
def pyFloatOfStr (s : String) : Except Err ℚ :=
  let core : List Char → Except Err ℚ := fun cs =>
    let ip := cs.takeWhile fun c => (digitVal c).isSome
    let rest := cs.dropWhile fun c => (digitVal c).isSome
    match rest with
    | [] =>
      match decDigitsVal ip with
      | Option.some n => Except.ok (n : ℚ)
      | Option.none => Except.error Err.valueError
    | '.' :: fp =>
      if fp.all fun c => (digitVal c).isSome then
        if ip.isEmpty ∧ fp.isEmpty then Except.error Err.valueError
        else
          let ipv := (decDigitsVal ip).getD 0
          let fpv := (decDigitsVal fp).getD 0
          Except.ok ((ipv : ℚ) + (fpv : ℚ) / ((10 : ℚ) ^ fp.length))
      else Except.error Err.valueError
    | _ => Except.error Err.valueError
  match stripWs s.data with
  | '+' :: rest => core rest
  | '-' :: rest => (core rest).map Neg.neg
  | cs => core cs

/-- Models the Python builtin `float(x)`: floats pass through, ints convert
exactly (the IEEE rounding of huge ints is not modelled; no theorem below
exercises it), strings and bytes parse, everything else raises
`TypeError`. -/
def pyFloat : PyVal → Except Err ℚ
  | PyVal.float q => Except.ok q
  | PyVal.int i => Except.ok (i : ℚ)
  | PyVal.str s => pyFloatOfStr s
  | PyVal.bytes b => pyFloatOfStr (bytesToString b)
  | PyVal.none => Except.error Err.typeError
  | PyVal.dict _ => Except.error Err.typeError

/-- Rendering of a float used by `pyStr`.  CPython renders floats with the
shortest round-tripping decimal; that rendering is not reproduced here and
no theorem below depends on this branch (wire text payloads are strings). -/
def floatRepr (q : ℚ) : String := toString q.num ++ "/" ++ toString q.den

/-- Simplified rendering of a bytes object (CPython escape sequences are
not reproduced; unexercised by the theorems below). -/
def bytesRepr (b : List Nat) : String :=
  String.mk ('b' :: '\'' :: (b.map Char.ofNat) ++ ['\''])

/-- Models the Python builtin `str(x)`.  The embedded code only ever applies
it to wire text payloads, which are strings, so only the `str` branch is
exercised by any theorem; the remaining renderings are simplified. -/
def pyStr : PyVal → String
  | PyVal.str s => s
  | PyVal.int i => toString i
  | PyVal.none => "None"
  | PyVal.float q => floatRepr q
  | PyVal.bytes b => bytesRepr b
  | PyVal.dict _ => "\x7b...\x7d"

/-- ASCII codes of the standard base64 alphabet, index 0 to 63. -/
def b64Alphabet : List Nat :=
  [65, 66, 67, 68, 69, 70, 71, 72, 73, 74, 75, 76, 77, 78, 79, 80, 81, 82,
   83, 84, 85, 86, 87, 88, 89, 90, 97, 98, 99, 100, 101, 102, 103, 104,
   105, 106, 107, 108, 109, 110, 111, 112, 113, 114, 115, 116, 117, 118,
   119, 120, 121, 122, 48, 49, 50, 51, 52, 53, 54, 55, 56, 57, 43, 47]

/-- Character (ASCII code) of a 6-bit group. -/
def b64Char (n : Nat) : Nat := b64Alphabet.getD n 0

/-- Models `base64.b64encode`: bytes in, base64 bytes out, with `=`
padding (ASCII 61). -/
def b64encode : List Nat → List Nat
  | [] => []
  | [b0] =>
    let n := (b0 % 256) * 65536
    [b64Char (n / 262144), b64Char (n / 4096 % 64), 61, 61]
  | [b0, b1] =>
    let n := (b0 % 256) * 65536 + (b1 % 256) * 256
    [b64Char (n / 262144), b64Char (n / 4096 % 64), b64Char (n / 64 % 64), 61]
  | b0 :: b1 :: b2 :: rest =>
    let n := (b0 % 256) * 65536 + (b1 % 256) * 256 + b2 % 256
    b64Char (n / 262144) :: b64Char (n / 4096 % 64) :: b64Char (n / 64 % 64)
      :: b64Char (n % 64) :: b64encode rest

/-- Index of an ASCII code in the base64 alphabet, if any. -/
def b64DecVal (c : Nat) : Option Nat :=
  if 65 ≤ c ∧ c ≤ 90 then Option.some (c - 65)
  else if 97 ≤ c ∧ c ≤ 122 then Option.some (c - 97 + 26)
  else if 48 ≤ c ∧ c ≤ 57 then Option.some (c - 48 + 52)
  else if c = 43 then Option.some 62
  else if c = 47 then Option.some 63
  else Option.none

/-- Decode groups of four base64 characters (alphabet characters and `=`
padding only); a trailing group that is not four characters long raises
the `binascii` incorrect-padding error, modelled as `ValueError`. -/
def b64decodeGroups : List Nat → Except Err (List Nat)
  | [] => Except.ok []
  | a :: b :: c :: d :: rest =>
    (match b64DecVal a, b64DecVal b with
     | Option.some va, Option.some vb =>
       if c = 61 then
         if d = 61 ∧ rest = [] then Except.ok [va * 4 + vb / 16]
         else Except.error Err.valueError
       else
         match b64DecVal c with
         | Option.some vc =>
           if d = 61 then
             if rest = [] then Except.ok [va * 4 + vb / 16, vb % 16 * 16 + vc / 4]
             else Except.error Err.valueError
           else
             match b64DecVal d with
             | Option.some vd =>
               (b64decodeGroups rest).map fun tail =>
                 (va * 4 + vb / 16) :: (vb % 16 * 16 + vc / 4) :: (vc % 4 * 64 + vd) :: tail
             | Option.none => Except.error Err.valueError
         | Option.none => Except.error Err.valueError
     | _, _ => Except.error Err.valueError)
  | _ => Except.error Err.valueError

/-- Models `base64.b64decode` (default `validate=False`): accepts `str` or
`bytes`, discards characters outside the alphabet and padding, then
decodes. -/
def pyB64decode : PyVal → Except Err (List Nat)
  | PyVal.str s =>
    b64decodeGroups ((s.data.map Char.toNat).filter fun c =>
      (b64DecVal c).isSome || c = 61)
  | PyVal.bytes b =>
    b64decodeGroups (b.filter fun c => (b64DecVal c).isSome || c = 61)
  | _ => Except.error Err.typeError

/-- Embeds `value_to_sqlite` of `hrana_server.py` lines 66-78 (the
`test_server.py` copy at lines 73-85 is textually identical): decodes a
wire value into a native SQLite value.  Subscripting a non-dict raises
`TypeError`; a missing key raises `KeyError`; an unrecognized tag raises
`RuntimeError`. -/
def value_to_sqlite (v : PyVal) : Except Err SqliteValue :=
  match v with
  | PyVal.dict entries =>
    (pyDictGet entries "type").bind fun t =>
      match t with
      | PyVal.str tag =>
        if tag = "null" then Except.ok SqliteValue.null
        else if tag = "integer" then
          (pyDictGet entries "value").bind fun x =>
            (pyInt x).map SqliteValue.int
        else if tag = "float" then
          (pyDictGet entries "value").bind fun x =>
            (pyFloat x).map SqliteValue.float
        else if tag = "text" then
          (pyDictGet entries "value").map fun x => SqliteValue.str (pyStr x)
        else if tag = "blob" then
          (pyDictGet entries "base64").bind fun x =>
            (pyB64decode x).map SqliteValue.bytes
        else Except.error Err.runtimeError
      | _ => Except.error Err.runtimeError
  | _ => Except.error Err.typeError

/-- Embeds `value_from_sqlite` of `hrana_server.py` lines 80-92 (identical
copy in `test_server.py` lines 87-99): encodes a native SQLite value as a
wire value.  Note that the blob branch of the source stores the base64
payload (raw `bytes` from `b64encode`) under the key `"value"`, not
`"base64"`; the embedding reproduces this. -/
def value_from_sqlite : SqliteValue → PyVal
  | SqliteValue.null => PyVal.dict [("type", PyVal.str "null")]
  | SqliteValue.int i =>
    PyVal.dict [("type", PyVal.str "integer"), ("value", PyVal.str (toString i))]
  | SqliteValue.float q =>
    PyVal.dict [("type", PyVal.str "float"), ("value", PyVal.float q)]
  | SqliteValue.str s =>
    PyVal.dict [("type", PyVal.str "text"), ("value", PyVal.str s)]
  | SqliteValue.bytes b =>
    PyVal.dict [("type", PyVal.str "blob"), ("value", PyVal.bytes (b64encode b))]

/-- An execute request's statement payload `{sql, args, want_rows}`. -/
structure Stmt where
  sql : String
  args : List PyVal
  want_rows : Bool

/-- One column-description entry `{"name": name}` of a result. -/
structure ColDesc where
  name : String
  deriving DecidableEq, Repr

/-- The observable state of a `sqlite3` cursor after `conn.execute`:
`description` is `none` for statements with no output columns (the
remaining six fields of each description tuple are discarded by the
scripts), `rows` the rows the cursor will yield, `rowcount` the
engine-reported modified-row count (`-1` when unknown, e.g. SELECT). -/
structure Cursor where
  description : Option (List String)
  rows : List (List SqliteValue)
  rowcount : Int

/-- The SQL engine collaborator: `conn.execute(sql, params)` returning a
cursor or raising. -/
abbrev Engine := String → List SqliteValue → Except Err Cursor

/-- The result dict `{cols, rows, affected_row_count}` of an execute. -/
structure StmtResult where
  cols : List ColDesc
  rows : List (List PyVal)
  affected_row_count : Int

/-- Embeds the row loop of `execute_stmt` (both variants): the cursor is
iterated to exhaustion, and a row is appended to `rows` only when
`want_rows` is truthy.  The first component counts loop iterations,
witnessing that the cursor is consumed fully even when `want_rows` is
false. -/
def consume_rows (want_rows : Bool) : List (List SqliteValue) → Nat × List (List PyVal)
  | [] => (0, [])
  | r :: rest =>
    let s := consume_rows want_rows rest
    (s.1 + 1, if want_rows then (r.map value_from_sqlite) :: s.2 else s.2)

/-- Embeds `execute_stmt` of `hrana_server.py` lines 54-64: decode the
args, run the statement, build `cols` from `cursor.description` — iterating
`None` raises `TypeError` when the statement has no output columns — and
return the raw `cursor.rowcount` unclamped. -/
def execute_stmt_h (eng : Engine) (stmt : Stmt) : Except Err StmtResult :=
  (stmt.args.mapM value_to_sqlite).bind fun params =>
    (eng stmt.sql params).bind fun cursor =>
      (match cursor.description with
       | Option.some ds => Except.ok (ds.map ColDesc.mk)
       | Option.none => Except.error Err.typeError).bind fun cols =>
        Except.ok (StmtResult.mk cols (consume_rows stmt.want_rows cursor.rows).2
          cursor.rowcount)

/-- Embeds `execute_stmt` of `test_server.py` lines 57-71: identical to the
"h" variant except `cursor.description or []` tolerates `None`, and a
negative `cursor.rowcount` is clamped to `0`. -/
def execute_stmt_t (eng : Engine) (stmt : Stmt) : Except Err StmtResult :=
  (stmt.args.mapM value_to_sqlite).bind fun params =>
    (eng stmt.sql params).bind fun cursor =>
      Except.ok (StmtResult.mk ((cursor.description.getD []).map ColDesc.mk)
        (consume_rows stmt.want_rows cursor.rows).2
        (if 0 ≤ cursor.rowcount then cursor.rowcount else 0))

/-- One statement-execution strategy (`execute_stmt` variant). -/
abbrev ExecFn := Engine → Stmt → Except Err StmtResult

/-- The per-session stream registry plus a counter allocating fresh backing
connections (each `sqlite3.connect` call yields a new connection, numbered
by `nextConn`).  The registry is a CPython dict keyed by the coerced
stream id. -/
structure ServerState where
  streams : List (Int × Nat)
  nextConn : Nat

/-- Registry lookup `streams.get(k)` / `streams[k]` membership test. -/
def lookupStream (l : List (Int × Nat)) (k : Int) : Option Nat := assocGet l k

/-- An incoming request payload, dispatched on `req["type"]`; `stream_id`
payloads are kept as raw `PyVal` because the handlers coerce them with
`int(...)`. -/
inductive Request where
  | open_stream (stream_id : PyVal)
  | close_stream (stream_id : PyVal)
  | execute (stream_id : PyVal) (stmt : Stmt)
  | unknown

/-- A response payload: `{"type": "open_stream"}`, `{"type": "close_stream"}`
or `{"type": "execute", "result": result}`. -/
inductive Response where
  | open_ok
  | close_ok
  | execute_ok (result : StmtResult)

/-- Embeds `handle_request` of `hrana_server.py` lines 35-52 at the level of
registry state and responses (`test_server.py` lines 39-55 has the same
state semantics; the two differ only in locking, modelled separately by the
event traces below, and in the `execute_stmt` variant, the `ex` parameter):
open_stream connects and registers unconditionally, close_stream pops and
is a no-op for unknown ids, execute subscripts the registry — raising
`KeyError` for an unknown id — and runs the statement.  An unknown request
type raises `RuntimeError`. -/
def handle_request (ex : ExecFn) (eng : Engine) (st : ServerState) :
    Request → Except Err (ServerState × Response)
  | Request.open_stream sid =>
    (pyInt sid).bind fun k =>
      Except.ok (ServerState.mk (assocPut st.streams k st.nextConn) (st.nextConn + 1),
        Response.open_ok)
  | Request.close_stream sid =>
    (pyInt sid).bind fun k =>
      Except.ok (ServerState.mk (List.filter (fun e => decide (e.1 ≠ k)) st.streams)
        st.nextConn, Response.close_ok)
  | Request.execute sid stmt =>
    (pyInt sid).bind fun k =>
      match lookupStream st.streams k with
      | Option.none => Except.error Err.keyError
      | Option.some _ =>
        (ex eng stmt).map fun result => (st, Response.execute_ok result)
  | Request.unknown => Except.error Err.runtimeError

/-- An incoming frame after `json.loads`: a hello, a request envelope
`{"type": "request", "request_id": rid, "request": req}`, or a frame of any
other type. -/
inductive Msg where
  | hello
  | request (request_id : Int) (req : Request)
  | other

/-- An outgoing frame: `{"type": "hello_ok"}` or
`{"type": "response_ok", "request_id": rid, "response": resp}`. -/
inductive OutMsg where
  | hello_ok
  | response_ok (request_id : Int) (resp : Response)

/-- How a session run ends: the transport closed cleanly (recv returned
`None`), or an uncaught exception escaped `handle_socket`, closing the
transport abruptly. -/
inductive Outcome where
  | clean
  | crashed (e : Err)

/-- Embeds the message loop of `handle_socket` (`hrana_server.py` lines
98-111): frames are read and handled one at a time — each request is
awaited to completion before the next frame is read — a `request` frame is
dispatched and its `response_ok` sent, any other frame raises
`RuntimeError`, and any exception escaping `handle_request` terminates the
loop with no response.  The inbound frame sequence is the list argument;
list exhaustion models the client closing the connection. -/
def session_loop (ex : ExecFn) (eng : Engine) :
    ServerState → List Msg → List OutMsg × Outcome
  | _, [] => ([], Outcome.clean)
  | st, Msg.request rid req :: rest =>
    (match handle_request ex eng st req with
     | Except.error e => ([], Outcome.crashed e)
     | Except.ok (st2, resp) =>
       let s := session_loop ex eng st2 rest
       (OutMsg.response_ok rid resp :: s.1, s.2))
  | _, Msg.hello :: _ => ([], Outcome.crashed Err.runtimeError)
  | _, Msg.other :: _ => ([], Outcome.crashed Err.runtimeError)

/-- Embeds `handle_socket` (`hrana_server.py` lines 94-111; the handshake
lines of `test_server.py` 113-115 are identical): the first frame must have
`type == "hello"` — the failing `assert` on any other first frame crashes
the handler before anything is sent — then `hello_ok` is sent and the
message loop runs with an empty stream registry. -/
def session (ex : ExecFn) (eng : Engine) : List Msg → List OutMsg × Outcome
  | [] => ([], Outcome.crashed Err.attributeError)
  | Msg.hello :: rest =>
    let s := session_loop ex eng (ServerState.mk [] 0) rest
    (OutMsg.hello_ok :: s.1, s.2)
  | Msg.request _ _ :: _ => ([], Outcome.crashed Err.assertionError)
  | Msg.other :: _ => ([], Outcome.crashed Err.assertionError)

/-- A fixed engine used as concrete input by witnesses: every statement
yields an empty cursor with one declared column and unknown rowcount. -/
def engFixed : Engine := fun _ _ => Except.ok (Cursor.mk (Option.some ["a"]) [] (-1))

/-- A concrete statement used by witnesses. -/
def stmt0 : Stmt := Stmt.mk "SELECT 1" [] true

/-- Lock and connection events a request performs on the streams' backing
resources, carrying the stream key and, for connection operations, the
receipt index of the originating request. -/
inductive Ev where
  | acq (k : Int)
  | use (k : Int) (i : Nat)
  | fin (k : Int) (i : Nat)
  | rel (k : Int)
  deriving DecidableEq, Repr

/-- The stream an event concerns. -/
def Ev.stream : Ev → Int
  | Ev.acq k => k
  | Ev.use k _ => k
  | Ev.fin k _ => k
  | Ev.rel k => k

/-- Lock/connection event trace of one request in `hrana_server.py`
(lines 40-50): an execute on a registered stream acquires the stream's
`asyncio.Lock`, runs on the connection, and releases (the `async with`
releases even when `execute_stmt` raises); a close of a registered stream
acquires the lock, closes the connection, releases.  Requests whose id
coercion fails or whose stream is unregistered never touch a stream's
connection. -/
def request_events_h (st : ServerState) (i : Nat) : Request → List Ev
  | Request.execute sid _ =>
    (match pyInt sid with
     | Except.ok k =>
       match lookupStream st.streams k with
       | Option.some _ => [Ev.acq k, Ev.use k i, Ev.rel k]
       | Option.none => []
     | Except.error _ => [])
  | Request.close_stream sid =>
    (match pyInt sid with
     | Except.ok k =>
       match lookupStream st.streams k with
       | Option.some _ => [Ev.acq k, Ev.fin k i, Ev.rel k]
       | Option.none => []
     | Except.error _ => [])
  | _ => []

/-- Lock/connection event trace of one request in `test_server.py`
(lines 45-53): its `Stream` namedtuple has a `conn` field but no lock, so
an execute or close of a registered stream touches the backing connection
with no lock acquisition at all. -/
def request_events_t (st : ServerState) (i : Nat) : Request → List Ev
  | Request.execute sid _ =>
    (match pyInt sid with
     | Except.ok k =>
       match lookupStream st.streams k with
       | Option.some _ => [Ev.use k i]
       | Option.none => []
     | Except.error _ => [])
  | Request.close_stream sid =>
    (match pyInt sid with
     | Except.ok k =>
       match lookupStream st.streams k with
       | Option.some _ => [Ev.fin k i]
       | Option.none => []
     | Except.error _ => [])
  | _ => []

/-- Event trace of the `hrana_server.py` message loop from a given state,
numbering requests by receipt index: each frame's events happen before the
next frame is read (the loop awaits `handle_request` to completion), and a
request that raises ends the trace. -/
def sessionEventsLoop (ex : ExecFn) (eng : Engine) :
    ServerState → Nat → List Msg → List Ev
  | _, _, [] => []
  | st, i, Msg.request _ req :: rest =>
    request_events_h st i req ++
      (match handle_request ex eng st req with
       | Except.ok (st2, _) => sessionEventsLoop ex eng st2 (i + 1) rest
       | Except.error _ => [])
  | _, _, Msg.hello :: _ => []
  | _, _, Msg.other :: _ => []

/-- Event trace of a whole `hrana_server.py` session: the handshake frame
performs no stream operations, and a session whose first frame is not a
hello performs none at all. -/
def sessionEvents (ex : ExecFn) (eng : Engine) (msgs : List Msg) : List Ev :=
  match msgs with
  | Msg.hello :: rest => sessionEventsLoop ex eng (ServerState.mk [] 0) 0 rest
  | _ => []

/-- Serialized use of stream `k`'s backing connection, with receipt indices
bounded below by `i`: the trace, restricted to stream `k`, is a sequence of
non-overlapping lock-bracketed blocks `acq, use/fin, rel` whose receipt
indices strictly increase.  This captures at-most-one operation at a time
on the stream's connection, token acquisition before every connection
touch, and application in receipt order. -/
inductive SerFor (k : Int) : Nat → List Ev → Prop where
  | nil (i : Nat) : SerFor k i []
  | skip (e : Ev) (i : Nat) (tr : List Ev) :
      Ev.stream e ≠ k → SerFor k i tr → SerFor k i (e :: tr)
  | blockUse (i j : Nat) (tr : List Ev) :
      i ≤ j → SerFor k (j + 1) tr →
      SerFor k i (Ev.acq k :: Ev.use k j :: Ev.rel k :: tr)
  | blockFin (i j : Nat) (tr : List Ev) :
      i ≤ j → SerFor k (j + 1) tr →
      SerFor k i (Ev.acq k :: Ev.fin k j :: Ev.rel k :: tr)

/-- The parameter set of a driver statement: `stmt.params` is either a
sequence (bound positionally) or a dict (bound by name). -/
inductive ParamSource (α : Type) where
  | positional (vs : List α)
  | named (ps : List (String × α))

/-- Embeds the sigil test of `_batch` (`sqlite_driver.py` line 43):
`name[:1] in (":", "@", "$")`.  On an empty name, `name[:1]` is the empty
string, which is not a sigil. -/
def hasSigil (n : String) : Bool :=
  n.take 1 = ":" || n.take 1 = "@" || n.take 1 = "$"

/-- The loop of `_batch` (`sqlite_driver.py` lines 41-45) building
`sql_params` from a named parameter dict: iterate the entries in insertion
order, raise `ValueError` at the first name that does not begin with a
sigil, and otherwise assign the value under the name with its first
character stripped (`name[1:]`). -/
def convertNamedGo {α : Type} (acc : List (String × α)) :
    List (String × α) → Except Err (List (String × α))
  | [] => Except.ok acc
  | p :: rest =>
    if hasSigil p.1 then convertNamedGo (assocPut acc (p.1.drop 1) p.2) rest
    else Except.error Err.valueError

/-- Named-parameter conversion of `_batch`, starting from the empty
`sql_params` dict. -/
def convertNamed {α : Type} (ps : List (String × α)) :
    Except Err (List (String × α)) :=
  convertNamedGo [] ps

/-- Embeds the per-statement body of `_batch` (`sqlite_driver.py` lines
38-48) up to `conn.execute`: a named parameter set is converted first, and
only if conversion succeeds is the engine invoked with the converted
parameters; a positional set is passed through unchanged. -/
def batchStmt {α β : Type} (eng : String → ParamSource α → Except Err β)
    (sql : String) (ps : ParamSource α) : Except Err β :=
  match ps with
  | ParamSource.named l => (convertNamed l).bind fun sp => eng sql (ParamSource.named sp)
  | ParamSource.positional vs => eng sql (ParamSource.positional vs)

/-- A concrete engine for the execute-shape witnesses: one declared column
`id`, one row, unknown rowcount. -/
def engRows : Engine := fun _ _ =>
  Except.ok (Cursor.mk (Option.some ["id"]) [[SqliteValue.int 1]] (-1))

/-- A concrete SELECT-like statement with `want_rows = false`. -/
def stmtNoRows : Stmt := Stmt.mk "SELECT id FROM t" [] false

/-- A concrete engine producing a SELECT-shaped cursor: one declared
column, one row already filtered out by `want_rows = false`, and the
engine-reported unknown rowcount `-1`. -/
def engSel : Engine := fun _ _ =>
  Except.ok (Cursor.mk (Option.some ["a"]) [[SqliteValue.null]] (-1))

/-- The concrete SELECT statement used against `engSel`. -/
def stmtSel : Stmt := Stmt.mk "SELECT a FROM t" [] false

/-- A concrete engine for a statement with no declared output columns
(`cursor.description` is `None`, as for CREATE TABLE). -/
def engDdl : Engine := fun _ _ => Except.ok (Cursor.mk Option.none [] (-1))

/-- The concrete DDL statement used against `engDdl`. -/
def stmtDdl : Stmt := Stmt.mk "CREATE TABLE t (x)" [] false

/-- A concrete engine over integer parameter sources for the C9 witness. -/
def engParams : String → ParamSource Int → Except Err Int := fun _ _ => Except.ok 0

/-- Weakening the receipt-index lower bound of `SerFor`. -/
theorem SerFor.mono {k : Int} {i i' : Nat} {tr : List Ev}
    (hle : i ≤ i') (h : SerFor k i' tr) : SerFor k i tr := by
  induction h generalizing i with
  | nil _ => exact SerFor.nil i
  | skip e _ tr hne _ ih => exact SerFor.skip e i tr hne (ih hle)
  | blockUse _ j tr hij h2 _ => exact SerFor.blockUse i j tr (le_trans hle hij) h2
  | blockFin _ j tr hij h2 _ => exact SerFor.blockFin i j tr (le_trans hle hij) h2

/-- Prepending one request's `hrana_server.py` event block preserves
serialized use of every stream, advancing the receipt bound. -/
theorem SerFor.append_request (k : Int) (st : ServerState) (i : Nat)
    (req : Request) (tr : List Ev) (h : SerFor k (i + 1) tr) :
    SerFor k i (request_events_h st i req ++ tr) := by
  have hmono : SerFor k i tr := SerFor.mono (Nat.le_succ i) h
  cases req with
  | open_stream sid => simpa [request_events_h] using hmono
  | unknown => simpa [request_events_h] using hmono
  | execute sid stmt =>
    cases hki : pyInt sid with
    | error e => simpa [request_events_h, hki] using hmono
    | ok k' =>
      cases hlk : lookupStream st.streams k' with
      | none => simpa [request_events_h, hki, hlk] using hmono
      | some c =>
        simp only [request_events_h, hki, hlk, List.cons_append, List.nil_append]
        by_cases hk : k' = k
        · subst hk
          exact SerFor.blockUse i i tr (le_refl i) h
        · exact SerFor.skip _ i _ (by simpa [Ev.stream] using hk)
            (SerFor.skip _ i _ (by simpa [Ev.stream] using hk)
              (SerFor.skip _ i _ (by simpa [Ev.stream] using hk) hmono))
  | close_stream sid =>
    cases hki : pyInt sid with
    | error e => simpa [request_events_h, hki] using hmono
    | ok k' =>
      cases hlk : lookupStream st.streams k' with
      | none => simpa [request_events_h, hki, hlk] using hmono
      | some c =>
        simp only [request_events_h, hki, hlk, List.cons_append, List.nil_append]
        by_cases hk : k' = k
        · subst hk
          exact SerFor.blockFin i i tr (le_refl i) h
        · exact SerFor.skip _ i _ (by simpa [Ev.stream] using hk)
            (SerFor.skip _ i _ (by simpa [Ev.stream] using hk)
              (SerFor.skip _ i _ (by simpa [Ev.stream] using hk) hmono))

/-- The `hrana_server.py` message loop produces a serialized trace for
every stream, from any state and receipt index. -/
theorem SerFor.loop (ex : ExecFn) (eng : Engine) (k : Int) :
    ∀ (msgs : List Msg) (st : ServerState) (i : Nat),
      SerFor k i (sessionEventsLoop ex eng st i msgs) := by
  intro msgs
  induction msgs with
  | nil => intro st i; exact SerFor.nil i
  | cons m rest ih =>
    intro st i
    cases m with
    | hello => exact SerFor.nil i
    | other => exact SerFor.nil i
    | request rid req =>
      simp only [sessionEventsLoop]
      cases hr : handle_request ex eng st req with
      | error e =>
        exact SerFor.append_request k st i req [] (SerFor.nil (i + 1))
      | ok p =>
        exact SerFor.append_request k st i req _ (ih p.1 (i + 1))

/-- Unfolding `convertNamedGo` to a total check plus a fold: conversion
succeeds exactly when every name has a sigil, and then equals the
insertion-ordered dict of stripped names. -/
theorem convertNamedGo_eq {α : Type} (ps : List (String × α)) :
    ∀ acc : List (String × α),
      convertNamedGo acc ps =
        (if ps.all fun p => hasSigil p.1 then
          Except.ok (ps.foldl (fun a p => assocPut a (p.1.drop 1) p.2) acc)
        else Except.error Err.valueError) := by
  induction ps with
  | nil => intro acc; simp [convertNamedGo]
  | cons p rest ih =>
    intro acc
    by_cases hp : hasSigil p.1
    · simp only [convertNamedGo, hp, if_true, List.all_cons, Bool.true_and]
      exact ih _
    · simp [convertNamedGo, hp, List.all_cons]

/-- Loop-iteration count of the row loop: the cursor is consumed fully —
every row is visited — regardless of `want_rows`. -/
theorem consume_rows_count (w : Bool) (l : List (List SqliteValue)) :
    (consume_rows w l).1 = l.length := by
  induction l with
  | nil => rfl
  | cons r rest ih => simp [consume_rows, ih]

/-- Rows collected by the row loop: all rows in cursor order when
`want_rows` is true, none otherwise. -/
theorem consume_rows_rows (w : Bool) (l : List (List SqliteValue)) :
    (consume_rows w l).2 =
      (if w then l.map fun r => r.map value_from_sqlite else []) := by
  induction l with
  | nil => cases w <;> rfl
  | cons r rest ih => cases w <;> simp_all [consume_rows]

/-- Dict assignment followed by lookup of the same key yields the assigned
value. -/
theorem assocGet_put_self {κ α : Type} [DecidableEq κ] (l : List (κ × α)) (k : κ) (v : α) :
    assocGet (assocPut l k v) k = Option.some v := by
  induction l with
  | nil => simp [assocPut, assocGet]
  | cons e rest ih =>
    by_cases h : e.1 = k
    · simp [assocPut, assocGet, h]
    · simp [assocPut, assocGet, h, ih]

/-- C1 (code inconsistency): in both server scripts, `value_from_sqlite`
stores a blob's base64 payload under the dict key `"value"` (as raw
`bytes` from `b64encode`), while the blob branch of `value_to_sqlite` in
the same file reads the key `"base64"`.  Decoding the encoding of any blob
therefore raises `KeyError` instead of returning the blob — the claimed
round-trip fails for the blob tag — while a wire value that does carry its
payload under `"base64"` is decoded correctly by the blob branch, and the
other four tags (null, integer incl. `2^63 - 1`, float, text) do
round-trip. -/
theorem blob_encoding_key_mismatch :
    value_from_sqlite (SqliteValue.bytes []) =
      PyVal.dict [("type", PyVal.str "blob"), ("value", PyVal.bytes [])]
    ∧ value_to_sqlite (value_from_sqlite (SqliteValue.bytes [])) =
        Except.error Err.keyError
    ∧ value_to_sqlite (value_from_sqlite (SqliteValue.bytes [104, 105])) =
        Except.error Err.keyError
    ∧ value_to_sqlite (PyVal.dict [("type", PyVal.str "blob"), ("base64", PyVal.str "aGk=")]) =
        Except.ok (SqliteValue.bytes [104, 105])
    ∧ value_to_sqlite (value_from_sqlite (SqliteValue.int (2 ^ 63 - 1))) =
        Except.ok (SqliteValue.int (2 ^ 63 - 1))
    ∧ value_to_sqlite (value_from_sqlite SqliteValue.null) = Except.ok SqliteValue.null
    ∧ value_to_sqlite (value_from_sqlite (SqliteValue.str "a")) =
        Except.ok (SqliteValue.str "a")
    ∧ value_to_sqlite (value_from_sqlite (SqliteValue.float (mkRat 3 2))) =
        Except.ok (SqliteValue.float (mkRat 3 2)) :=
  ⟨rfl, rfl, rfl, rfl, rfl, rfl, rfl, rfl⟩

/-- C2 counterexample: a session receives a valid hello, then an execute
request for the unregistered stream 1, then a further well-formed
open_stream request.  The server sends only `hello_ok`: no response of any
kind (in particular no error response carrying request_id 1) is produced,
the subsequent frame is never processed, and the handler crashes with the
uncaught `KeyError`, closing the transport.  This contradicts the claim
that the failure is reported per-request and the session remains open. -/
theorem execute_unknown_stream_crash_cex :
    session execute_stmt_h engFixed
      [Msg.hello, Msg.request 1 (Request.execute (PyVal.int 1) stmt0),
       Msg.request 2 (Request.open_stream (PyVal.int 1))] =
      ([OutMsg.hello_ok], Outcome.crashed Err.keyError) := rfl

/-- C2 (amended): an execute request whose coerced stream_id is not
registered makes `streams[int(...)]` raise `KeyError`; the exception
escapes `handle_request` into the message loop, so the session emits no
response for this request, processes no subsequent frame, and terminates
abruptly. -/
theorem execute_unknown_stream_terminates_session (ex : ExecFn) (eng : Engine)
    (st : ServerState) (rid : Int) (sid : PyVal) (stmt : Stmt) (k : Int)
    (rest : List Msg) (hk : pyInt sid = Except.ok k)
    (hmiss : lookupStream st.streams k = Option.none) :
    session_loop ex eng st (Msg.request rid (Request.execute sid stmt) :: rest) =
      ([], Outcome.crashed Err.keyError) := by
  simp [session_loop, handle_request, hk, hmiss, Except.bind]

/-- Witness for the C2 amended theorem at a concrete state and frame. -/
theorem execute_unknown_stream_terminates_session_witness :
    session_loop execute_stmt_h engFixed (ServerState.mk [] 0)
      [Msg.request 1 (Request.execute (PyVal.int 1) stmt0)] =
      ([], Outcome.crashed Err.keyError) :=
  execute_unknown_stream_terminates_session execute_stmt_h engFixed
    (ServerState.mk [] 0) 1 (PyVal.int 1) stmt0 1 [] rfl rfl

/-- C3 counterexample: with stream 1 already registered (backed by
connection 0), a second `open_stream` for id 1 succeeds with an ordinary
open_stream response and overwrites the registry entry with the freshly
opened connection 1 — no `DuplicateStreamError`, and the existing stream's
registry entry is not left unchanged. -/
theorem duplicate_open_stream_replaces_cex :
    handle_request execute_stmt_h engFixed (ServerState.mk [((1 : Int), 0)] 1)
      (Request.open_stream (PyVal.int 1)) =
      Except.ok (ServerState.mk [((1 : Int), 1)] 2, Response.open_ok) := rfl

/-- C3 (amended): `open_stream` performs no duplicate check — for any id
that already denotes a live stream it succeeds and silently rebinds the id
to the newly allocated backing connection (the previous connection is
leaked, never closed). -/
theorem duplicate_open_stream_replaces (ex : ExecFn) (eng : Engine)
    (st : ServerState) (sid : PyVal) (k : Int) (c : Nat)
    (hk : pyInt sid = Except.ok k)
    (_hlive : lookupStream st.streams k = Option.some c) :
    handle_request ex eng st (Request.open_stream sid) =
      Except.ok (ServerState.mk (assocPut st.streams k st.nextConn) (st.nextConn + 1),
        Response.open_ok)
    ∧ lookupStream (assocPut st.streams k st.nextConn) k = Option.some st.nextConn := by
  constructor
  · simp [handle_request, hk, Except.bind]
  · exact assocGet_put_self st.streams k st.nextConn

/-- Witness for the C3 amended theorem at a concrete registry. -/
theorem duplicate_open_stream_replaces_witness :
    handle_request execute_stmt_h engFixed (ServerState.mk [((1 : Int), 0)] 1)
      (Request.open_stream (PyVal.int 1)) =
      Except.ok (ServerState.mk (assocPut [((1 : Int), 0)] 1 1) 2, Response.open_ok)
    ∧ lookupStream (assocPut [((1 : Int), 0)] 1 1) 1 = Option.some 1 :=
  duplicate_open_stream_replaces execute_stmt_h engFixed
    (ServerState.mk [((1 : Int), 0)] 1) (PyVal.int 1) 1 0 rfl rfl

/-- C5: in the AwaitingHello state, a first frame whose type is `hello`
gets the `hello_ok` reply and the session enters the open message loop on
an empty registry; any other first frame fails the `assert`, so the
handler crashes before sending anything and no later frame is processed. -/
theorem awaiting_hello_state_machine (ex : ExecFn) (eng : Engine) (m : Msg)
    (rest : List Msg) :
    (m ≠ Msg.hello → session ex eng (m :: rest) = ([], Outcome.crashed Err.assertionError))
    ∧ session ex eng (Msg.hello :: rest) =
        (OutMsg.hello_ok :: (session_loop ex eng (ServerState.mk [] 0) rest).1,
         (session_loop ex eng (ServerState.mk [] 0) rest).2) := by
  constructor
  · intro hne
    cases m with
    | hello => exact absurd rfl hne
    | request rid req => rfl
    | other => rfl
  · rfl

/-- Witness for C5 at concrete first frames. -/
theorem awaiting_hello_state_machine_witness :
    session execute_stmt_h engFixed [Msg.other] = ([], Outcome.crashed Err.assertionError)
    ∧ session execute_stmt_h engFixed [Msg.hello] =
        (OutMsg.hello_ok :: (session_loop execute_stmt_h engFixed (ServerState.mk [] 0) []).1,
         (session_loop execute_stmt_h engFixed (ServerState.mk [] 0) []).2) :=
  ⟨(awaiting_hello_state_machine execute_stmt_h engFixed Msg.other []).1
      (fun h => Msg.noConfusion h),
   (awaiting_hello_state_machine execute_stmt_h engFixed Msg.other []).2⟩

/-- C4 counterexample: in `test_server.py` there is no serialization token
at all — its `Stream` record holds only the connection — so an execute (and
likewise a close) of the registered stream 1 touches the backing
connection without any lock acquisition, contradicting the claim that
every execute and close acquires the stream's serialization token before
touching the connection. -/
theorem test_server_unlocked_connection_cex :
    request_events_t (ServerState.mk [((1 : Int), 0)] 1) 0
        (Request.execute (PyVal.int 1) stmt0) = [Ev.use 1 0]
    ∧ Ev.acq 1 ∉ request_events_t (ServerState.mk [((1 : Int), 0)] 1) 0
        (Request.execute (PyVal.int 1) stmt0)
    ∧ request_events_t (ServerState.mk [((1 : Int), 0)] 1) 0
        (Request.close_stream (PyVal.int 1)) = [Ev.fin 1 0] := by
  refine ⟨rfl, ?_, rfl⟩
  decide

/-- C4 (amended, proved for `hrana_server.py` where the serialization token
exists): for every inbound frame sequence and every stream, the session's
lock/connection event trace is serialized — each connection operation
(execute's statement run, close_stream's connection release) lies inside a
non-overlapping `acquire … release` block of that stream's lock, blocks
never nest or interleave (at most one operation on a stream's connection
at a time, and a close out-waits any execute), and the receipt indices of
the operations strictly increase, i.e. operations are applied in exactly
receipt order. -/
theorem hrana_per_stream_serialization (ex : ExecFn) (eng : Engine) (k : Int)
    (msgs : List Msg) : SerFor k 0 (sessionEvents ex eng msgs) := by
  cases msgs with
  | nil => exact SerFor.nil 0
  | cons m rest =>
    cases m with
    | hello => exact SerFor.loop ex eng k rest (ServerState.mk [] 0) 0
    | request rid req => exact SerFor.nil 0
    | other => exact SerFor.nil 0

/-- C6: with the engine returning cursor `cur`, the row loop visits every
row of the cursor (full consumption, also when `want_rows` is false), and
both `execute_stmt` variants return `rows = []` when `want_rows` is false
and the full encoded row data in cursor order when it is true. -/
theorem execute_want_rows_behavior (eng : Engine) (stmt : Stmt) (cur : Cursor)
    (params : List SqliteValue) (ds : List String)
    (hargs : stmt.args.mapM value_to_sqlite = Except.ok params)
    (heng : eng stmt.sql params = Except.ok cur)
    (hdesc : cur.description = Option.some ds) :
    (consume_rows stmt.want_rows cur.rows).1 = cur.rows.length
    ∧ execute_stmt_h eng stmt = Except.ok (StmtResult.mk (ds.map ColDesc.mk)
        (if stmt.want_rows then cur.rows.map fun r => r.map value_from_sqlite else [])
        cur.rowcount)
    ∧ execute_stmt_t eng stmt = Except.ok (StmtResult.mk (ds.map ColDesc.mk)
        (if stmt.want_rows then cur.rows.map fun r => r.map value_from_sqlite else [])
        (if 0 ≤ cur.rowcount then cur.rowcount else 0)) := by
  refine ⟨consume_rows_count _ _, ?_, ?_⟩
  · simp only [execute_stmt_h, hargs, heng, hdesc, Except.bind, consume_rows_rows]
  · simp only [execute_stmt_t, hargs, heng, hdesc, Except.bind, consume_rows_rows,
      Option.getD_some]

/-- Witness for C6 at a concrete engine, cursor and statement with
`want_rows = false`: the one-row cursor is consumed (count 1) yet `rows`
is empty in both variants. -/
theorem execute_want_rows_behavior_witness :
    (consume_rows stmtNoRows.want_rows [[SqliteValue.int 1]]).1 = 1
    ∧ execute_stmt_h engRows stmtNoRows =
        Except.ok (StmtResult.mk [ColDesc.mk "id"] [] (-1))
    ∧ execute_stmt_t engRows stmtNoRows =
        Except.ok (StmtResult.mk [ColDesc.mk "id"] [] 0) := by
  have h := execute_want_rows_behavior engRows stmtNoRows
    (Cursor.mk (Option.some ["id"]) [[SqliteValue.int 1]] (-1)) [] ["id"] rfl rfl rfl
  simpa using h

/-- C7 counterexample: `hrana_server.py`'s `execute_stmt` returns
`cursor.rowcount` unclamped, so a SELECT (engine-reported rowcount `-1`)
produces a response whose `affected_row_count` is `-1` — negative,
contradicting the claim that a negative engine count is reported as 0 and
that the field is never negative in a response. -/
theorem negative_affected_row_count_cex :
    execute_stmt_h engSel stmtSel =
      Except.ok (StmtResult.mk [ColDesc.mk "a"] [] (-1)) := rfl

/-- C7 (amended): `test_server.py` clamps a negative engine-reported
rowcount to 0 (and so never reports a negative count), but
`hrana_server.py` passes the engine-reported count through unclamped, so
its responses carry `-1` for SELECT statements. -/
theorem affected_row_count_behavior (eng : Engine) (stmt : Stmt) (cur : Cursor)
    (params : List SqliteValue) (ds : List String)
    (hargs : stmt.args.mapM value_to_sqlite = Except.ok params)
    (heng : eng stmt.sql params = Except.ok cur)
    (hdesc : cur.description = Option.some ds) :
    (∃ rt, execute_stmt_t eng stmt = Except.ok rt
      ∧ rt.affected_row_count = (if 0 ≤ cur.rowcount then cur.rowcount else 0)
      ∧ 0 ≤ rt.affected_row_count)
    ∧ ∃ rh, execute_stmt_h eng stmt = Except.ok rh
      ∧ rh.affected_row_count = cur.rowcount := by
  have ht : execute_stmt_t eng stmt = Except.ok (StmtResult.mk (ds.map ColDesc.mk)
      (consume_rows stmt.want_rows cur.rows).2
      (if 0 ≤ cur.rowcount then cur.rowcount else 0)) := by
    simp only [execute_stmt_t, hargs, heng, hdesc, Except.bind, Option.getD_some]
  have hh : execute_stmt_h eng stmt = Except.ok (StmtResult.mk (ds.map ColDesc.mk)
      (consume_rows stmt.want_rows cur.rows).2 cur.rowcount) := by
    simp only [execute_stmt_h, hargs, heng, hdesc, Except.bind]
  refine ⟨⟨_, ht, rfl, ?_⟩, _, hh, rfl⟩
  by_cases hrc : 0 ≤ cur.rowcount <;> simp [hrc]

/-- Witness for the C7 amended theorem at the concrete SELECT cursor. -/
theorem affected_row_count_behavior_witness :
    (∃ rt, execute_stmt_t engSel stmtSel = Except.ok rt
      ∧ rt.affected_row_count = (if 0 ≤ (-1 : Int) then (-1 : Int) else 0)
      ∧ 0 ≤ rt.affected_row_count)
    ∧ ∃ rh, execute_stmt_h engSel stmtSel = Except.ok rh
      ∧ rh.affected_row_count = -1 :=
  affected_row_count_behavior engSel stmtSel
    (Cursor.mk (Option.some ["a"]) [[SqliteValue.null]] (-1)) [] ["a"] rfl rfl rfl

/-- C8 counterexample: for a statement with no declared output columns,
`hrana_server.py` iterates `cursor.description` without the `or []` guard,
raising `TypeError` instead of returning an empty `cols` — the claim that
such a statement yields `cols = []` rather than an error fails there
(`test_server.py` does return `cols = []`). -/
theorem cols_none_description_cex :
    execute_stmt_h engDdl stmtDdl = Except.error Err.typeError
    ∧ execute_stmt_t engDdl stmtDdl = Except.ok (StmtResult.mk [] [] 0) :=
  ⟨rfl, rfl⟩

/-- C8 (amended): both variants populate `cols` with exactly the declared
output columns, one `{name}` entry per column in declaration order; for a
statement with no declared columns `test_server.py` yields the empty
sequence, while `hrana_server.py` raises `TypeError` from iterating
`None`. -/
theorem cols_declared_columns_behavior (eng : Engine) (stmt : Stmt) (cur : Cursor)
    (params : List SqliteValue)
    (hargs : stmt.args.mapM value_to_sqlite = Except.ok params)
    (heng : eng stmt.sql params = Except.ok cur) :
    execute_stmt_t eng stmt = Except.ok (StmtResult.mk
        ((cur.description.getD []).map ColDesc.mk)
        (consume_rows stmt.want_rows cur.rows).2
        (if 0 ≤ cur.rowcount then cur.rowcount else 0))
    ∧ execute_stmt_h eng stmt = (match cur.description with
        | Option.some ds => Except.ok (StmtResult.mk (ds.map ColDesc.mk)
            (consume_rows stmt.want_rows cur.rows).2 cur.rowcount)
        | Option.none => Except.error Err.typeError) := by
  constructor
  · simp only [execute_stmt_t, hargs, heng, Except.bind]
  · cases hdesc : cur.description with
    | some ds => simp only [execute_stmt_h, hargs, heng, hdesc, Except.bind]
    | none => simp only [execute_stmt_h, hargs, heng, hdesc, Except.bind]

/-- Witness for the C8 amended theorem at the no-columns cursor. -/
theorem cols_declared_columns_behavior_witness :
    execute_stmt_t engDdl stmtDdl = Except.ok (StmtResult.mk
        (((Cursor.mk Option.none [] (-1)).description.getD []).map ColDesc.mk)
        (consume_rows stmtDdl.want_rows []).2
        (if 0 ≤ (-1 : Int) then (-1 : Int) else 0))
    ∧ execute_stmt_h engDdl stmtDdl = (match (Cursor.mk Option.none [] (-1)).description with
        | Option.some ds => Except.ok (StmtResult.mk (ds.map ColDesc.mk)
            (consume_rows stmtDdl.want_rows []).2 (-1))
        | Option.none => Except.error Err.typeError) :=
  cols_declared_columns_behavior engDdl stmtDdl (Cursor.mk Option.none [] (-1)) [] rfl rfl

/-- C9: when a statement's parameters are given as a name-to-value mapping,
`_batch` converts them before calling `conn.execute`: conversion succeeds
exactly when every name begins with one of the sigils `:`, `@`, `$`, in
which case each value is assigned under its name with the sigil stripped
(`name[1:]`, insertion order, later duplicates overwriting); if any name
lacks a sigil, the whole statement fails with the `ValueError` raised
before execution, regardless of the engine. -/
theorem named_params_sigil_behavior {α β : Type}
    (eng : String → ParamSource α → Except Err β) (sql : String)
    (ps : List (String × α)) :
    convertNamed ps = (if ps.all fun p => hasSigil p.1 then
        Except.ok (ps.foldl (fun a p => assocPut a (p.1.drop 1) p.2) [])
      else Except.error Err.valueError)
    ∧ ((ps.all fun p => hasSigil p.1) = false →
        batchStmt eng sql (ParamSource.named ps) = Except.error Err.valueError) := by
  have h := convertNamedGo_eq ps ([] : List (String × α))
  refine ⟨h, fun hbad => ?_⟩
  simp only [batchStmt, convertNamed, h, hbad, Bool.false_eq_true, if_false, Except.bind]

/-- Witness for C9: the spec's concrete scenario — the named parameter
`":a"` binds as `"a"`, while the unprefixed name `"a"` fails with
`ValueError` before the engine is consulted. -/
theorem named_params_sigil_behavior_witness :
    convertNamed [(":a", (1 : Int))] = Except.ok [("a", (1 : Int))]
    ∧ batchStmt engParams "SELECT :a" (ParamSource.named [("a", (1 : Int))]) =
        Except.error Err.valueError := by
  constructor
  · have h := (named_params_sigil_behavior engParams "SELECT :a" [(":a", (1 : Int))]).1
    rw [h]
    rfl
  · exact (named_params_sigil_behavior engParams "SELECT :a" [("a", (1 : Int))]).2 rfl

/-- C10: each of the three handlers coerces the `stream_id` payload through
`int(...)` before consulting the registry, so any two payloads with the
same coercion (e.g. the JSON numbers 1 and 1.9, or the numeric string
`"1"`) are handled identically — they denote the same stream — and a
payload whose coercion raises makes the handler raise that same
exception. -/
theorem stream_id_int_coercion (ex : ExecFn) (eng : Engine) (st : ServerState)
    (a b : PyVal) (stmt : Stmt) (e : Err) (hab : pyInt a = pyInt b) :
    handle_request ex eng st (Request.open_stream a) =
      handle_request ex eng st (Request.open_stream b)
    ∧ handle_request ex eng st (Request.close_stream a) =
      handle_request ex eng st (Request.close_stream b)
    ∧ handle_request ex eng st (Request.execute a stmt) =
      handle_request ex eng st (Request.execute b stmt)
    ∧ (pyInt a = Except.error e →
        handle_request ex eng st (Request.open_stream a) = Except.error e
        ∧ handle_request ex eng st (Request.close_stream a) = Except.error e
        ∧ handle_request ex eng st (Request.execute a stmt) = Except.error e) := by
  refine ⟨?_, ?_, ?_, fun he => ⟨?_, ?_, ?_⟩⟩
  · simp only [handle_request, hab]
  · simp only [handle_request, hab]
  · simp only [handle_request, hab]
  · simp only [handle_request, he, Except.bind]
  · simp only [handle_request, he, Except.bind]
  · simp only [handle_request, he, Except.bind]

/-- Witness for C10: the JSON number 1.9 (as its exact double value is not
needed, the rational 19/10 with the same truncation is used) and the
numeric string `"1"` coerce to the same stream key 1, so all three
handlers treat them identically. -/
theorem stream_id_int_coercion_witness :
    (handle_request execute_stmt_h engFixed (ServerState.mk [] 0)
        (Request.open_stream (PyVal.float (mkRat 19 10))) =
      handle_request execute_stmt_h engFixed (ServerState.mk [] 0)
        (Request.open_stream (PyVal.str "1")))
    ∧ (handle_request execute_stmt_h engFixed (ServerState.mk [] 0)
        (Request.close_stream (PyVal.float (mkRat 19 10))) =
      handle_request execute_stmt_h engFixed (ServerState.mk [] 0)
        (Request.close_stream (PyVal.str "1")))
    ∧ (handle_request execute_stmt_h engFixed (ServerState.mk [] 0)
        (Request.execute (PyVal.float (mkRat 19 10)) stmt0) =
      handle_request execute_stmt_h engFixed (ServerState.mk [] 0)
        (Request.execute (PyVal.str "1") stmt0))
    ∧ (pyInt (PyVal.float (mkRat 19 10)) = Except.error Err.typeError →
        handle_request execute_stmt_h engFixed (ServerState.mk [] 0)
          (Request.open_stream (PyVal.float (mkRat 19 10))) = Except.error Err.typeError
        ∧ handle_request execute_stmt_h engFixed (ServerState.mk [] 0)
          (Request.close_stream (PyVal.float (mkRat 19 10))) = Except.error Err.typeError
        ∧ handle_request execute_stmt_h engFixed (ServerState.mk [] 0)
          (Request.execute (PyVal.float (mkRat 19 10)) stmt0) = Except.error Err.typeError) :=
  stream_id_int_coercion execute_stmt_h engFixed (ServerState.mk [] 0)
    (PyVal.float (mkRat 19 10)) (PyVal.str "1") stmt0 Err.typeError rfl
